import Mathlib

/-!
Verification of the Farm House voucher-logging bot (`src/bot.py`).

The program is a 4-state conversation state machine built on
`telegram.ext.ConversationHandler`, plus a Google-Sheets adapter.  We embed:

* Python's builtin `float(str)` parse (`pyFloat`), the only validation gate;
* `datetime.now().strftime("%Y-%m-%d %H:%M:%S")` (`DateTime.strftimeYmdHms`);
* the startup header initialisation (`ensureHeader`, lines 56-61 of bot.py);
* the handlers `start`, `get_name`, `get_voucher_type`, `get_voucher_amount`,
  `cancel`, `help_command`;
* the dispatch performed by the `Application` with the `ConversationHandler`
  configured in `main` (entry point `/start`, per-state `MessageHandler`s for
  non-command text, fallback `/cancel`, and a separate `/help` handler),
  as the step function `processUpdate`.

Dispatch facts embedded from `python-telegram-bot` semantics (the framework
the source configures in `main`, lines 206-217): with the default
`allow_reentry = False`, entry points are consulted only when no conversation
is active; with a conversation active, the update is checked against the
current state's handlers, then the fallbacks, and otherwise falls through to
the next handler (`/help`) or is dropped.  `ConversationHandler.END` removes
the conversation, modelled as the `idle` state.
-/

/-- Values Python's `float` can produce.  Finite values are kept as exact
rationals: every concrete literal appearing in this development (`25.5`,
`50`, `1000`, `-5`) is exactly representable as a double, so no rounding
is lost. -/
inductive PyFloat where
  | finite (q : ℚ)
  | inf
  | negInf
  | nan
deriving DecidableEq

/-- The whitespace characters `str.strip()`-stripped by `float()` (ASCII part;
Unicode whitespace is not modelled, no input in this development uses it). -/
def isPySpace (c : Char) : Bool :=
  c = ' ' || c = '\t' || c = '\n' || c = '\x0d' || c = '\x0b' || c = '\x0c'

/-- Strip leading and trailing whitespace, as `float()` does. -/
def stripPy (cs : List Char) : List Char :=
  ((cs.dropWhile isPySpace).reverse.dropWhile isPySpace).reverse

/-- Numeric value of a list of decimal digit characters. -/
def digitsToNat (cs : List Char) : ℕ :=
  cs.foldl (fun a c => 10 * a + (c.toNat - 48)) 0

/-- Apply an exponent part to a mantissa `m` scaled by `10^e`: `ds` must be
a nonempty digit string.  The unsigned literal is carried as a pair
`(mantissa digits, base-10 exponent)` so the parser computes only with
`ℕ`/`ℤ`; the rational value is produced once at the end by `decValue`. -/
def applyExp (m : ℕ) (e : ℤ) (pos : Bool) (ds : List Char) : Option (ℕ × ℤ) :=
  if ds ≠ [] ∧ ds.all Char.isDigit then
    some (m, if pos then e + digitsToNat ds else e - digitsToNat ds)
  else none

/-- Exponent digits with an optional sign. -/
def parseSignedExp (m : ℕ) (e : ℤ) : List Char → Option (ℕ × ℤ)
  | '+' :: ds => applyExp m e true ds
  | '-' :: ds => applyExp m e false ds
  | ds => applyExp m e true ds

/-- Optional `e`/`E` exponent suffix; anything else trailing is a parse error. -/
def parseExp (m : ℕ) (e : ℤ) : List Char → Option (ℕ × ℤ)
  | [] => some (m, e)
  | 'e' :: rest => parseSignedExp m e rest
  | 'E' :: rest => parseSignedExp m e rest
  | _ => none

/-- An unsigned decimal literal: `D+ [. D*] | . D+`, optional exponent.
(Underscore digit separators, accepted by CPython between digits, are not
modelled; no input in this development uses them.) -/
def parseDecimal (cs : List Char) : Option (ℕ × ℤ) :=
  let p := cs.span Char.isDigit
  match p.2 with
  | '.' :: r2 =>
    let q := r2.span Char.isDigit
    if p.1 = [] ∧ q.1 = [] then none
    else parseExp (digitsToNat (p.1 ++ q.1)) (-(q.1.length : ℤ)) q.2
  | r1 => if p.1 = [] then none else parseExp (digitsToNat p.1) 0 r1

/-- The rational value `±m × 10^e` denoted by a parsed decimal literal. -/
def decValue (neg : Bool) (m : ℕ) (e : ℤ) : ℚ :=
  (if neg then -(m : ℚ) else (m : ℚ)) * 10 ^ e

/-- Model of Python's builtin `float(s)` on strings (bot.py line 121:
`amount = float(update.message.text)`): strip whitespace, optional sign,
then a case-insensitive `inf`/`infinity`/`nan` or a decimal literal.
`none` models the `ValueError` caught at line 159. -/
def pyFloat (s : String) : Option PyFloat :=
  match stripPy s.data with
  | [] => none
  | c :: cs =>
    let sb : Bool × List Char :=
      if c = '+' then (false, cs)
      else if c = '-' then (true, cs)
      else (false, c :: cs)
    let low := sb.2.map Char.toLower
    if low = "inf".data ∨ low = "infinity".data then
      some (if sb.1 then .negInf else .inf)
    else if low = "nan".data then some .nan
    else (parseDecimal sb.2).map fun p => .finite (decValue sb.1 p.1 p.2)

/-- A server-local wall-clock time, the result of `datetime.now()`.
Real `datetime` objects satisfy `1 ≤ year ≤ 9999` (`datetime.MAXYEAR`),
`1 ≤ month ≤ 12`, `1 ≤ day ≤ 31`, `hour ≤ 23`, `minute ≤ 59`,
`second ≤ 59`; within those ranges the `% 10` digit extraction below
coincides with `strftime`'s zero padding. -/
structure DateTime where
  year : ℕ
  month : ℕ
  day : ℕ
  hour : ℕ
  minute : ℕ
  second : ℕ
deriving DecidableEq

/-- `d.strftime("%Y-%m-%d %H:%M:%S")` (bot.py line 125). -/
def DateTime.strftimeYmdHms (d : DateTime) : String :=
  ⟨[Nat.digitChar (d.year / 1000 % 10), Nat.digitChar (d.year / 100 % 10),
    Nat.digitChar (d.year / 10 % 10), Nat.digitChar (d.year % 10), '-',
    Nat.digitChar (d.month / 10 % 10), Nat.digitChar (d.month % 10), '-',
    Nat.digitChar (d.day / 10 % 10), Nat.digitChar (d.day % 10), ' ',
    Nat.digitChar (d.hour / 10 % 10), Nat.digitChar (d.hour % 10), ':',
    Nat.digitChar (d.minute / 10 % 10), Nat.digitChar (d.minute % 10), ':',
    Nat.digitChar (d.second / 10 % 10), Nat.digitChar (d.second % 10)]⟩

/-- Checks that a string has the exact shape `YYYY-MM-DD HH:MM:SS`. -/
def isTimestampFormat (s : String) : Bool :=
  match s.data with
  | [y3, y2, y1, y0, s1, mo1, mo0, s2, d1, d0, s3,
     h1, h0, s4, mi1, mi0, s5, se1, se0] =>
    y3.isDigit && y2.isDigit && y1.isDigit && y0.isDigit && s1 = '-' &&
    mo1.isDigit && mo0.isDigit && s2 = '-' && d1.isDigit && d0.isDigit &&
    s3 = ' ' && h1.isDigit && h0.isDigit && s4 = ':' &&
    mi1.isDigit && mi0.isDigit && s5 = ':' && se1.isDigit && se0.isDigit
  | _ => false

/-- A spreadsheet cell as passed to `gspread`: Python hands over strings and
floats in the same row list. -/
inductive Cell where
  | str (s : String)
  | num (v : PyFloat)
deriving DecidableEq

/-- One spreadsheet row. -/
abbrev Row := List Cell

/-- The header row written at startup (bot.py line 60):
`['Tanggal', 'Nama', 'Jenis Voucher', 'Jumlah (Dollar)']`. -/
def headerRow : Row :=
  [.str "Tanggal", .str "Nama", .str "Jenis Voucher", .str "Jumlah (Dollar)"]

/-- The startup header initialisation (bot.py lines 59-60):
`if sheet.row_values(1) == []: sheet.append_row(header)`.
The sheet is modelled as its list of rows; `row_values(1)` returns the first
row's values, `[]` when the row is absent or empty; `append_row` appends
after the existing data. -/
def ensureHeader (rows : List Row) : List Row :=
  if rows.headD [] = [] then rows ++ [headerRow] else rows

/-- The conversation states.  `NAME`, `VOUCHER_TYPE`, `VOUCHER_AMOUNT` are
`range(3)` in bot.py line 27; `idle` models "no active conversation",
which is both the initial situation and `ConversationHandler.END`. -/
inductive ConvState where
  | idle
  | awaitingName
  | awaitingVoucherType
  | awaitingAmount
deriving DecidableEq

/-- The keys of `context.user_data` the program uses: `'name'`,
`'voucher_type'`, `'amount'`.  `none` models "key absent". -/
structure UserData where
  name : Option String
  voucher_type : Option String
  amount : Option PyFloat
deriving DecidableEq

/-- `user_data` after `context.user_data.clear()` (or before any write). -/
def UserData.empty : UserData := ⟨none, none, none⟩

/-- One user's conversation session: current `ConversationHandler` state plus
the scratch dictionary. -/
structure Session where
  state : ConvState
  user_data : UserData
deriving DecidableEq

/-- An inbound update, as classified by the handler filters in `main`:
the three commands the program registers, any other command, or a plain
non-command text message (`filters.TEXT & ~filters.COMMAND`). -/
inductive Event where
  | startCmd
  | cancelCmd
  | helpCmd
  | otherCmd (s : String)
  | text (t : String)
deriving DecidableEq

/-- Outbound replies, one constructor per `reply_text` call site in bot.py.
Fixed-text messages carry no payload; messages that interpolate collected
data carry exactly the interpolated values. -/
inductive Msg where
  | welcome
  | askVoucherType (name : String)
  | askAmount
  | success (date name voucher_type : String) (amount : PyFloat)
  | saveError
  | notConfigured
  | invalidAmount
  | cancelled
  | helpText
deriving DecidableEq

/-- The environment of one update: whether `sheet` is non-`None` (startup
succeeded), whether `sheet.append_row` succeeds or raises, and the current
wall-clock time. -/
structure Env where
  sheetAvailable : Bool
  appendOk : Bool
  now : DateTime
deriving DecidableEq

/-- The observable outcome of dispatching one update: the new session, the
replies sent, and the rows passed to `sheet.append_row` (attempted appends;
when `appendOk = false` the call is made but raises). -/
structure StepResult where
  session : Session
  replies : List Msg
  appends : List Row
deriving DecidableEq

/-- `start` (bot.py lines 71-78): greet and move to `NAME`.  Note that it
does not touch `context.user_data`. -/
def start (s : Session) : StepResult :=
  ⟨⟨.awaitingName, s.user_data⟩, [.welcome], []⟩

/-- `get_name` (bot.py lines 81-103): store the text under `'name'`, show the
voucher-type keyboard, move to `VOUCHER_TYPE`. -/
def get_name (s : Session) (text : String) : StepResult :=
  ⟨⟨.awaitingVoucherType,
    ⟨some text, s.user_data.voucher_type, s.user_data.amount⟩⟩,
   [.askVoucherType text], []⟩

/-- `get_voucher_type` (bot.py lines 106-115): store the text under
`'voucher_type'`, ask for the amount, move to `VOUCHER_AMOUNT`. -/
def get_voucher_type (s : Session) (text : String) : StepResult :=
  ⟨⟨.awaitingAmount,
    ⟨s.user_data.name, some text, s.user_data.amount⟩⟩,
   [.askAmount], []⟩

/-- `get_voucher_amount` (bot.py lines 118-164).  On `ValueError` from
`float`: re-prompt and return `VOUCHER_AMOUNT`, touching nothing.  On a
successful parse: write `'amount'`, then read `'name'` and `'voucher_type'`
(a missing key would raise `KeyError`, which the `except ValueError` clause
does not catch: the framework then keeps the state and the partial mutation —
the final match arm; that configuration is unreachable, see the invariant).
With `sheet` available, call `append_row`; on success reply with the echo of
all four values, on failure with a fixed generic message; with `sheet = None`
reply that the service is not configured.  All three of those branches clear
`user_data` and return `ConversationHandler.END`. -/
def get_voucher_amount (env : Env) (s : Session) (text : String) : StepResult :=
  match pyFloat text with
  | none => ⟨⟨.awaitingAmount, s.user_data⟩, [.invalidAmount], []⟩
  | some amount =>
    let ud : UserData := ⟨s.user_data.name, s.user_data.voucher_type, some amount⟩
    match ud.name, ud.voucher_type with
    | some name, some voucher_type =>
      let current_date := env.now.strftimeYmdHms
      if env.sheetAvailable then
        if env.appendOk then
          ⟨⟨.idle, UserData.empty⟩,
           [.success current_date name voucher_type amount],
           [[.str current_date, .str name, .str voucher_type, .num amount]]⟩
        else
          ⟨⟨.idle, UserData.empty⟩, [.saveError],
           [[.str current_date, .str name, .str voucher_type, .num amount]]⟩
      else
        ⟨⟨.idle, UserData.empty⟩, [.notConfigured], []⟩
    | _, _ => ⟨⟨.awaitingAmount, ud⟩, [], []⟩

/-- `cancel` (bot.py lines 167-174): acknowledge, clear `user_data`, end the
conversation. -/
def cancel (_s : Session) : StepResult :=
  ⟨⟨.idle, UserData.empty⟩, [.cancelled], []⟩

/-- `help_command` (bot.py lines 177-190): static help text, no state or
scratch change. -/
def help_command (s : Session) : StepResult :=
  ⟨s, [.helpText], []⟩

/-- Dispatch of one update by the application configured in `main`
(bot.py lines 206-217).  With no active conversation only the entry point
`/start` (and the separate `/help` handler) can match; with an active
conversation the current state's text handler, then the `/cancel` fallback,
then the `/help` handler are tried; anything unmatched — notably `/start`
during an active conversation — is dropped with no effect. -/
def processUpdate (env : Env) (s : Session) (ev : Event) : StepResult :=
  match s.state, ev with
  | .idle, .startCmd => start s
  | .idle, .helpCmd => help_command s
  | .idle, _ => ⟨s, [], []⟩
  | _, .cancelCmd => cancel s
  | _, .helpCmd => help_command s
  | _, .startCmd => ⟨s, [], []⟩
  | _, .otherCmd _ => ⟨s, [], []⟩
  | .awaitingName, .text t => get_name s t
  | .awaitingVoucherType, .text t => get_voucher_type s t
  | .awaitingAmount, .text t => get_voucher_amount env s t

/-- Fold `processUpdate` over a list of inbound updates, collecting all
replies and all attempted appends. -/
def runEvents (env : Env) : Session → List Event → Session × List Msg × List Row
  | s, [] => (s, [], [])
  | s, ev :: evs =>
    let r := processUpdate env s ev
    let rest := runEvents env r.session evs
    (rest.1, r.replies ++ rest.2.1, r.appends ++ rest.2.2)

/-- The sessions the system can actually be in: the fresh session, closed
under dispatching arbitrary updates in arbitrary environments. -/
inductive Reachable : Session → Prop where
  | init : Reachable ⟨.idle, UserData.empty⟩
  | step (env : Env) (s : Session) (ev : Event) :
      Reachable s → Reachable (processUpdate env s ev).session

/-- The state/scratch coupling maintained by the machine. -/
def SessionInv (s : Session) : Prop :=
  match s.state with
  | .idle => s.user_data = UserData.empty
  | .awaitingName => s.user_data = UserData.empty
  | .awaitingVoucherType =>
    s.user_data.name ≠ none ∧ s.user_data.voucher_type = none ∧
      s.user_data.amount = none
  | .awaitingAmount =>
    s.user_data.name ≠ none ∧ s.user_data.voucher_type ≠ none ∧
      s.user_data.amount = none

/-- A fixed sample timestamp used in concrete witnesses. -/
def dt0 : DateTime := ⟨2025, 10, 12, 9, 30, 0⟩

/-- Concrete evaluation of the parse model: `float("25.5") = 25.5`. -/
theorem pyFloat_25_5 : pyFloat "25.5" = some (.finite (51/2)) := by
  have h : (51/2 : ℚ) = decValue false 255 (-1) := by norm_num [decValue]
  rw [h]; rfl

/-- Concrete evaluation of the parse model: `float("50") = 50.0`. -/
theorem pyFloat_50 : pyFloat "50" = some (.finite 50) := by
  have h : (50 : ℚ) = decValue false 50 0 := by norm_num [decValue]
  rw [h]; rfl

/-- Concrete evaluation of the parse model: `float("-5") = -5.0`. -/
theorem pyFloat_neg5 : pyFloat "-5" = some (.finite (-5)) := by
  have h : (-5 : ℚ) = decValue true 5 0 := by norm_num [decValue]
  rw [h]; rfl

/-- Concrete evaluation of the parse model: `float("1e3") = 1000.0`. -/
theorem pyFloat_1e3 : pyFloat "1e3" = some (.finite 1000) := by
  have h : (1000 : ℚ) = decValue false 1 3 := by norm_num [decValue]
  rw [h]; rfl

/-- Concrete evaluation of the parse model: `float("  50  ") = 50.0`
(Python strips surrounding whitespace). -/
theorem pyFloat_pad50 : pyFloat "  50  " = some (.finite 50) := by
  have h : (50 : ℚ) = decValue false 50 0 := by norm_num [decValue]
  rw [h]; rfl

/-- A decimal digit character produced by `Nat.digitChar` of `n % 10`. -/
theorem digitChar_mod_ten_isDigit (n : ℕ) : (Nat.digitChar (n % 10)).isDigit = true := by
  have h : n % 10 < 10 := Nat.mod_lt _ (by norm_num)
  set m := n % 10 with hm
  interval_cases m <;> rfl

/-- The fresh session satisfies the state/scratch invariant. -/
theorem sessionInv_init : SessionInv ⟨.idle, UserData.empty⟩ := rfl

/-- One dispatched update preserves the state/scratch invariant. -/
theorem sessionInv_step (env : Env) (s : Session) (ev : Event) (h : SessionInv s) :
    SessionInv (processUpdate env s ev).session := by
  obtain ⟨st, ud⟩ := s
  cases st with
  | idle =>
    simp only [SessionInv] at h
    cases ev <;> simp [processUpdate, start, help_command, SessionInv, h]
  | awaitingName =>
    simp only [SessionInv] at h
    subst h
    cases ev <;> simp [processUpdate, get_name, cancel, help_command, SessionInv, UserData.empty]
  | awaitingVoucherType =>
    simp only [SessionInv] at h
    cases ev <;>
      simp [processUpdate, get_voucher_type, cancel, help_command, SessionInv, UserData.empty,
        h.1, h.2.1, h.2.2]
  | awaitingAmount =>
    simp only [SessionInv] at h
    obtain ⟨n, hn⟩ := Option.ne_none_iff_exists'.mp h.1
    obtain ⟨vt, hvt⟩ := Option.ne_none_iff_exists'.mp h.2.1
    cases ev with
    | text t =>
      cases hp : pyFloat t with
      | none => simp [processUpdate, get_voucher_amount, hp, SessionInv, h.1, h.2.1, h.2.2]
      | some v =>
        cases hs : env.sheetAvailable <;> cases ho : env.appendOk <;>
          simp [processUpdate, get_voucher_amount, hp, hn, hvt, hs, ho, SessionInv, UserData.empty]
    | startCmd => simp [processUpdate, SessionInv, h.1, h.2.1, h.2.2]
    | cancelCmd => simp [processUpdate, cancel, SessionInv, UserData.empty]
    | helpCmd => simp [processUpdate, help_command, SessionInv, h.1, h.2.1, h.2.2]
    | otherCmd c => simp [processUpdate, SessionInv, h.1, h.2.1, h.2.2]

/-- C1: for the input sequence `/start`, `"Alice"`, `"Netflix"`, `"25.5"`,
with the sheet available and its append succeeding, the store receives
exactly one append whose row is `[<timestamp>, "Alice", "Netflix", 25.5]`,
the user receives a success confirmation carrying all four values, and the
conversation ends in the terminal (idle) state with the scratch cleared. -/
theorem C1_happy_path (now : DateTime) :
    runEvents ⟨true, true, now⟩ ⟨.idle, UserData.empty⟩
        [.startCmd, .text "Alice", .text "Netflix", .text "25.5"] =
      (⟨.idle, UserData.empty⟩,
       [.welcome, .askVoucherType "Alice", .askAmount,
        .success now.strftimeYmdHms "Alice" "Netflix" (.finite (51/2))],
       [[.str now.strftimeYmdHms, .str "Alice", .str "Netflix", .num (.finite (51/2))]]) := by
  have h : (51/2 : ℚ) = decValue false 255 (-1) := by norm_num [decValue]
  rw [h]; rfl

/-- C2 counterexample: a `/start` received in state `AwaitingVoucherType`
(an active conversation) does not transition the session to `AwaitingName`
and emits no welcome prompt — it matches no handler and is dropped, so the
claim "from any state ... emits a welcome prompt and transitions to
AwaitingName" fails at this concrete input. -/
theorem C2_counterexample :
    (processUpdate ⟨true, true, dt0⟩ ⟨.awaitingVoucherType, ⟨some "Alice", none, none⟩⟩
        .startCmd).session.state ≠ .awaitingName ∧
    (processUpdate ⟨true, true, dt0⟩ ⟨.awaitingVoucherType, ⟨some "Alice", none, none⟩⟩
        .startCmd).replies = [] := by
  decide

/-- C2 (amended): `/start` takes effect only when no conversation is active:
it then emits the welcome prompt and transitions to `AwaitingName`, leaving
the scratch data untouched (the handler performs no clearing; reachable idle
sessions already have empty scratch).  During an active conversation `/start`
matches no handler and is ignored: no reply, no state change, no mutation. -/
theorem C2_start_dispatch (env : Env) (ud : UserData) (st : ConvState) (h : st ≠ .idle) :
    processUpdate env ⟨.idle, ud⟩ .startCmd = ⟨⟨.awaitingName, ud⟩, [.welcome], []⟩ ∧
    processUpdate env ⟨st, ud⟩ .startCmd = ⟨⟨st, ud⟩, [], []⟩ := by
  refine ⟨rfl, ?_⟩
  cases st with
  | idle => exact absurd rfl h
  | awaitingName => rfl
  | awaitingVoucherType => rfl
  | awaitingAmount => rfl

/-- C2 witness: the amended dispatch behaviour of `/start` at the idle
session and at `AwaitingAmount`. -/
theorem C2_witness :
    processUpdate ⟨true, true, dt0⟩ ⟨.idle, UserData.empty⟩ .startCmd =
      ⟨⟨.awaitingName, UserData.empty⟩, [.welcome], []⟩ ∧
    processUpdate ⟨true, true, dt0⟩ ⟨.awaitingAmount, UserData.empty⟩ .startCmd =
      ⟨⟨.awaitingAmount, UserData.empty⟩, [], []⟩ :=
  C2_start_dispatch ⟨true, true, dt0⟩ UserData.empty .awaitingAmount (by decide)

/-- C3: in state `AwaitingAmount`, every text that fails to parse as a float
yields the validation-error prompt and leaves the session in
`AwaitingAmount` with the scratch data completely unchanged (`'amount'`
stays unset, nothing is overwritten) and no append attempted; every text
that parses yields the corresponding numeric value in the appended row and
in the success confirmation. -/
theorem C3_amount_validation (env : Env) (n vt t : String) :
    (pyFloat t = none →
      processUpdate env ⟨.awaitingAmount, ⟨some n, some vt, none⟩⟩ (.text t) =
        ⟨⟨.awaitingAmount, ⟨some n, some vt, none⟩⟩, [.invalidAmount], []⟩) ∧
    (∀ v, pyFloat t = some v → env.sheetAvailable = true →
      (processUpdate env ⟨.awaitingAmount, ⟨some n, some vt, none⟩⟩ (.text t)).appends =
        [[.str env.now.strftimeYmdHms, .str n, .str vt, .num v]] ∧
      (env.appendOk = true →
        (processUpdate env ⟨.awaitingAmount, ⟨some n, some vt, none⟩⟩ (.text t)).replies =
          [.success env.now.strftimeYmdHms n vt v])) := by
  constructor
  · intro hp
    simp [processUpdate, get_voucher_amount, hp]
  · intro v hp hs
    constructor
    · cases ho : env.appendOk <;> simp [processUpdate, get_voucher_amount, hp, hs, ho]
    · intro ho
      simp [processUpdate, get_voucher_amount, hp, hs, ho]

/-- C3 witness: `"abc"` is rejected in place with no mutation and no append;
`"50"` is parsed to `50` and appended. -/
theorem C3_witness :
    processUpdate ⟨true, true, dt0⟩ ⟨.awaitingAmount, ⟨some "Bob", some "Steam", none⟩⟩
        (.text "abc") =
      ⟨⟨.awaitingAmount, ⟨some "Bob", some "Steam", none⟩⟩, [.invalidAmount], []⟩ ∧
    (processUpdate ⟨true, true, dt0⟩ ⟨.awaitingAmount, ⟨some "Bob", some "Steam", none⟩⟩
        (.text "50")).appends =
      [[.str dt0.strftimeYmdHms, .str "Bob", .str "Steam", .num (.finite 50)]] :=
  ⟨(C3_amount_validation ⟨true, true, dt0⟩ "Bob" "Steam" "abc").1 (by decide),
   ((C3_amount_validation ⟨true, true, dt0⟩ "Bob" "Steam" "50").2 (.finite 50) pyFloat_50 rfl).1⟩

/-- C4: a `/cancel` received in any of the three collecting states emits the
cancellation acknowledgment, clears all session scratch data, ends the
conversation (idle/terminal state), and performs zero append operations. -/
theorem C4_cancel_aborts (env : Env) (st : ConvState) (ud : UserData) (h : st ≠ .idle) :
    processUpdate env ⟨st, ud⟩ .cancelCmd = ⟨⟨.idle, UserData.empty⟩, [.cancelled], []⟩ := by
  cases st with
  | idle => exact absurd rfl h
  | awaitingName => rfl
  | awaitingVoucherType => rfl
  | awaitingAmount => rfl

/-- C4 witness: cancelling from `AwaitingName`. -/
theorem C4_witness :
    processUpdate ⟨true, true, dt0⟩ ⟨.awaitingName, UserData.empty⟩ .cancelCmd =
      ⟨⟨.idle, UserData.empty⟩, [.cancelled], []⟩ :=
  C4_cancel_aborts ⟨true, true, dt0⟩ .awaitingName UserData.empty (by decide)

/-- C5: when the amount parses but the sheet was never initialised, the user
gets the fixed "service not configured" notice and no append is attempted;
when the sheet is available but `append_row` raises, the user gets the fixed
generic failure notice.  Both replies are constant messages carrying no
error detail, and in both cases the scratch data is fully cleared and the
conversation ends (idle/terminal state) — no stuck session, no retry. -/
theorem C5_store_failure (env : Env) (n vt t : String) (a0 : Option PyFloat) (v : PyFloat)
    (hv : pyFloat t = some v) :
    (env.sheetAvailable = false →
      processUpdate env ⟨.awaitingAmount, ⟨some n, some vt, a0⟩⟩ (.text t) =
        ⟨⟨.idle, UserData.empty⟩, [.notConfigured], []⟩) ∧
    (env.sheetAvailable = true → env.appendOk = false →
      processUpdate env ⟨.awaitingAmount, ⟨some n, some vt, a0⟩⟩ (.text t) =
        ⟨⟨.idle, UserData.empty⟩, [.saveError],
         [[.str env.now.strftimeYmdHms, .str n, .str vt, .num v]]⟩) := by
  constructor
  · intro hs
    simp [processUpdate, get_voucher_amount, hv, hs]
  · intro hs ho
    simp [processUpdate, get_voucher_amount, hv, hs, ho]

/-- C5 witness: the unavailable-sheet case and the failing-append case at a
concrete parsed amount. -/
theorem C5_witness :
    processUpdate ⟨false, true, dt0⟩ ⟨.awaitingAmount, ⟨some "Bob", some "Steam", none⟩⟩
        (.text "50") =
      ⟨⟨.idle, UserData.empty⟩, [.notConfigured], []⟩ ∧
    processUpdate ⟨true, false, dt0⟩ ⟨.awaitingAmount, ⟨some "Bob", some "Steam", none⟩⟩
        (.text "50") =
      ⟨⟨.idle, UserData.empty⟩, [.saveError],
       [[.str dt0.strftimeYmdHms, .str "Bob", .str "Steam", .num (.finite 50)]]⟩ :=
  ⟨(C5_store_failure ⟨false, true, dt0⟩ "Bob" "Steam" "50" none (.finite 50) pyFloat_50).1 rfl,
   (C5_store_failure ⟨true, false, dt0⟩ "Bob" "Steam" "50" none (.finite 50) pyFloat_50).2 rfl rfl⟩

/-- C6 counterexample: from a fresh `/start`, the input sequence `"Bob"`,
`"Steam"`, `"-5"` is accepted and appends a row whose amount is `-5`, a
negative number — refuting the claim that no negative amount is ever
accepted or appended. -/
theorem C6_counterexample :
    (runEvents ⟨true, true, dt0⟩ ⟨.idle, UserData.empty⟩
        [.startCmd, .text "Bob", .text "Steam", .text "-5"]).2.2 =
      [[.str dt0.strftimeYmdHms, .str "Bob", .str "Steam", .num (.finite (-5))]] ∧
    (-5 : ℚ) < 0 := by
  constructor
  · have h : (-5 : ℚ) = decValue true 5 0 := by norm_num [decValue]
    rw [h]; rfl
  · norm_num

/-- C6 (amended): every amount accepted by the `AwaitingAmount` parse is
stored and appended exactly as parsed, with no sign restriction — the code
performs no non-negativity check, so negative amounts are accepted and
appended as well. -/
theorem C6_no_sign_check (env : Env) (n vt t : String) (v : PyFloat)
    (hv : pyFloat t = some v) (hs : env.sheetAvailable = true) :
    (processUpdate env ⟨.awaitingAmount, ⟨some n, some vt, none⟩⟩ (.text t)).appends =
      [[.str env.now.strftimeYmdHms, .str n, .str vt, .num v]] := by
  cases ho : env.appendOk <;> simp [processUpdate, get_voucher_amount, hv, hs, ho]

/-- C6 witness: the negative input `"-5"` is appended as parsed. -/
theorem C6_witness :
    (processUpdate ⟨true, true, dt0⟩ ⟨.awaitingAmount, ⟨some "Bob", some "Steam", none⟩⟩
        (.text "-5")).appends =
      [[.str dt0.strftimeYmdHms, .str "Bob", .str "Steam", .num (.finite (-5))]] :=
  C6_no_sign_check ⟨true, true, dt0⟩ "Bob" "Steam" "-5" (.finite (-5)) pyFloat_neg5 rfl

/-- C7 counterexample: on a sheet whose first row is blank but which holds
data below, `row_values(1) == []` is true on both runs while `append_row`
writes at the bottom, so running the header initialisation twice appends two
header rows — refuting the unconditional claim that calling `ensureHeader()`
twice in a row never produces two header rows. -/
theorem C7_counterexample :
    ensureHeader (ensureHeader [[], [Cell.str "x"]]) =
      [[], [Cell.str "x"], headerRow, headerRow] ∧
    (ensureHeader (ensureHeader [[], [Cell.str "x"]])).count headerRow = 2 := by
  decide

/-- C7 (amended): header initialisation writes the header row only when the
first row is empty/absent, and on any sheet whose first row is empty only
when the whole sheet is empty — true of every sheet this program itself
produces, since it only ever appends nonempty rows — running it twice in a
row is the same as running it once, so no second header row is produced;
on a sheet with a blank first row above existing data, each run appends a
fresh header row. -/
theorem C7_ensureHeader_idempotent (rows : List Row)
    (h : rows = [] ∨ rows.headD [] ≠ []) :
    ensureHeader (ensureHeader rows) = ensureHeader rows ∧
    (rows.headD [] ≠ [] → ensureHeader rows = rows) := by
  constructor
  · rcases h with h | h
    · subst h
      simp [ensureHeader, headerRow]
    · have e1 : ensureHeader rows = rows := by
        unfold ensureHeader
        rw [if_neg h]
      rw [e1]
      exact e1
  · intro h2
    unfold ensureHeader
    rw [if_neg h2]

/-- C7 witness: header initialisation on the empty sheet is idempotent. -/
theorem C7_witness :
    ensureHeader (ensureHeader []) = ensureHeader [] ∧
    (([] : List Row).headD [] ≠ [] → ensureHeader [] = []) :=
  C7_ensureHeader_idempotent [] (Or.inl rfl)

/-- C8 counterexample: the header row written at startup does not carry the
column names `Date, Name, Voucher Type, Amount` — the source writes the
Indonesian names `Tanggal, Nama, Jenis Voucher, Jumlah (Dollar)`. -/
theorem C8_counterexample :
    headerRow ≠ [.str "Date", .str "Name", .str "Voucher Type", .str "Amount"] := by
  decide

/-- C8 (amended): the persisted artifact schema is a fixed 4-column layout
whose header carries the Indonesian column names
`Tanggal, Nama, Jenis Voucher, Jumlah (Dollar)` (date, name, voucher type,
amount in dollars); the timestamp always renders in the fixed
`YYYY-MM-DD HH:MM:SS` shape; and each completed conversation (store
available) appends exactly one row `[timestamp, name, voucherType, amount]`
in that column order with the amount as the plain parsed number. -/
theorem C8_schema :
    headerRow = [.str "Tanggal", .str "Nama", .str "Jenis Voucher", .str "Jumlah (Dollar)"] ∧
    (∀ d : DateTime, isTimestampFormat d.strftimeYmdHms = true) ∧
    (∀ (env : Env) (n vt t : String) (v : PyFloat), pyFloat t = some v →
      env.sheetAvailable = true →
      (processUpdate env ⟨.awaitingAmount, ⟨some n, some vt, none⟩⟩ (.text t)).appends =
        [[.str env.now.strftimeYmdHms, .str n, .str vt, .num v]]) := by
  refine ⟨rfl, ?_, ?_⟩
  · intro d
    simp [DateTime.strftimeYmdHms, isTimestampFormat, digitChar_mod_ten_isDigit]
  · intro env n vt t v hv hs
    cases ho : env.appendOk <;> simp [processUpdate, get_voucher_amount, hv, hs, ho]

/-- C8 witness: the timestamp format and the appended row shape at a concrete
conversation. -/
theorem C8_witness :
    isTimestampFormat dt0.strftimeYmdHms = true ∧
    (processUpdate ⟨true, true, dt0⟩ ⟨.awaitingAmount, ⟨some "Alice", some "Netflix", none⟩⟩
        (.text "25.5")).appends =
      [[.str dt0.strftimeYmdHms, .str "Alice", .str "Netflix", .num (.finite (51/2))]] :=
  ⟨C8_schema.2.1 dt0,
   C8_schema.2.2 ⟨true, true, dt0⟩ "Alice" "Netflix" "25.5" (.finite (51/2)) pyFloat_25_5 rfl⟩

/-- C9: in every reachable session the scratch fields are populated strictly
in order — a voucher type implies a name, an amount implies both — on entry
to `AwaitingAmount` name and voucher type are present (and the amount still
unset), and whenever the conversation is over (terminal/idle, by completion
or cancellation) the scratch data is fully cleared, so no residue carries
into the next conversation. -/
theorem C9_scratch_ordering (s : Session) (h : Reachable s) :
    (s.user_data.voucher_type ≠ none → s.user_data.name ≠ none) ∧
    (s.user_data.amount ≠ none →
      s.user_data.name ≠ none ∧ s.user_data.voucher_type ≠ none) ∧
    (s.state = .awaitingAmount →
      s.user_data.name ≠ none ∧ s.user_data.voucher_type ≠ none ∧
        s.user_data.amount = none) ∧
    (s.state = .idle → s.user_data = UserData.empty) := by
  have hi : SessionInv s := by
    induction h with
    | init => exact sessionInv_init
    | step env s2 ev hr ih => exact sessionInv_step env s2 ev ih
  obtain ⟨st, ud⟩ := s
  cases st with
  | idle =>
    simp only [SessionInv] at hi
    subst hi
    simp [UserData.empty]
  | awaitingName =>
    simp only [SessionInv] at hi
    subst hi
    simp [UserData.empty]
  | awaitingVoucherType =>
    simp only [SessionInv] at hi
    simp [hi.1, hi.2.1, hi.2.2]
  | awaitingAmount =>
    simp only [SessionInv] at hi
    simp [hi.1, hi.2.1, hi.2.2]

/-- C9 witness: the ordering facts at the reachable session obtained by
dispatching `/start` on the fresh session. -/
theorem C9_witness :
    ((Session.mk .awaitingName UserData.empty).user_data.voucher_type ≠ none →
      (Session.mk .awaitingName UserData.empty).user_data.name ≠ none) ∧
    ((Session.mk .awaitingName UserData.empty).user_data.amount ≠ none →
      (Session.mk .awaitingName UserData.empty).user_data.name ≠ none ∧
        (Session.mk .awaitingName UserData.empty).user_data.voucher_type ≠ none) ∧
    ((Session.mk .awaitingName UserData.empty).state = .awaitingAmount →
      (Session.mk .awaitingName UserData.empty).user_data.name ≠ none ∧
        (Session.mk .awaitingName UserData.empty).user_data.voucher_type ≠ none ∧
        (Session.mk .awaitingName UserData.empty).user_data.amount = none) ∧
    ((Session.mk .awaitingName UserData.empty).state = .idle →
      (Session.mk .awaitingName UserData.empty).user_data = UserData.empty) :=
  C9_scratch_ordering ⟨.awaitingName, UserData.empty⟩
    (Reachable.step ⟨true, true, dt0⟩ ⟨.idle, UserData.empty⟩ .startCmd Reachable.init)

/-- C10: the amount gate accepts strictly more than plain integer/decimal
digit strings: `"inf"`, `"nan"`, `"1e3"` and whitespace-padded `"  50  "`
all parse under Python `float` semantics, so in `AwaitingAmount` such input
ends the conversation and attempts an append with the resulting (possibly
non-finite) value instead of re-prompting — shown concretely for `"inf"`. -/
theorem C10_float_laxity :
    pyFloat "inf" = some .inf ∧ pyFloat "nan" = some .nan ∧
    pyFloat "1e3" = some (.finite 1000) ∧ pyFloat "  50  " = some (.finite 50) ∧
    (processUpdate ⟨true, true, dt0⟩ ⟨.awaitingAmount, ⟨some "Bob", some "Steam", none⟩⟩
        (.text "inf")).session = ⟨.idle, UserData.empty⟩ ∧
    (processUpdate ⟨true, true, dt0⟩ ⟨.awaitingAmount, ⟨some "Bob", some "Steam", none⟩⟩
        (.text "inf")).appends =
      [[.str dt0.strftimeYmdHms, .str "Bob", .str "Steam", .num .inf]] := by
  refine ⟨by decide, by decide, pyFloat_1e3, pyFloat_pad50, by decide, by decide⟩
